import Mathlib

/-!
Formal model (shallow embedding) of the BSM Theory verification pipeline:
class `BSMVerification` in `deepseek_python_20251224_19803d.py` and class
`BSMCalculator` in `src/bsm_calculator.py`.

Modelling conventions:
* mpmath arbitrary-precision numbers are modelled as exact real numbers;
  decimal string literals (`mp.mpf('…')`) and Python float literals are
  modelled as the exact decimal values they denote.
* `self.results` (a Python dict) is modelled as an association list
  `Cache`; `results.update`/item assignment prepends, and lookup takes the
  first (most recent) binding, which matches dict overwrite semantics.
* `mp.findroot` is an external mpmath primitive (a black box for this
  repository); the value it returns is passed in as a parameter `Troot`.
  For the convergence-failure path it is modelled as an `Option ℝ`
  (`none` models mpmath raising on non-convergence, before any cache
  write of the calling stage happens).
* the mpmath working precision `mp.mp.dps` is a process-global variable;
  it is modelled as an explicitly passed natural number.
-/

namespace BSM

noncomputable section

/-- The result cache `self.results`: a Python dict from quantity name to
mpmath value, modelled as an association list from `String` to `ℝ`. -/
abbrev Cache := List (String × ℝ)

/-- Dict lookup `self.results[k]` / `k in self.results`: first binding wins. -/
def cacheGet : Cache → String → Option ℝ
  | [], _ => none
  | (k', v) :: t, k => if k = k' then some v else cacheGet t k

/-- Dict write `self.results[k] = v` (also each key of a `results.update`):
prepend, so that the newest binding shadows any older one. -/
def cacheSet (c : Cache) (k : String) (v : ℝ) : Cache := (k, v) :: c

/-- The bindings present in the cache (newest first). -/
def cacheKeys (c : Cache) : List String := c.map Prod.fst

/-- The literal quantum correction `epsilon_BSM_value = mp.mpf('4.350917e-14')`
(`epsilon_BSM` in `bsm_calculator.py`).  In `deepseek_python_20251224_19803d.py`
a "first principles" value is computed just above it but is immediately
shadowed by this literal and never used; see `epsilon_BSM_derivation`. -/
def epsilon_BSM : ℝ := 4.350917e-14

/-- Dead code in `verify_transcendental_equation`: the shadowed
`epsilon_BSM = (hbar/(32*pi**2)) * (V_prime_prime**2/v0**2) * log(V_prime_prime/mu**2)`
with `hbar = 1.054571817e-34`, `v0 = 0.056*1.22e19`, `mu = 1e19`,
`V_prime_prime = 2*0.1*v0**2`.  Recorded for fidelity; unused downstream. -/
def epsilon_BSM_derivation : ℝ :=
  (1.054571817e-34 / (32 * Real.pi ^ 2)) *
    ((2 * 0.1 * (0.056 * 1.22e19) ^ 2) ^ 2 / (0.056 * 1.22e19) ^ 2) *
    Real.log ((2 * 0.1 * (0.056 * 1.22e19) ^ 2) / (1e19) ^ 2)

/-- `log_term = mp.log(1 + e/pi)`, stored by the solver stage. -/
def log_term : ℝ := Real.log (1 + Real.exp 1 / Real.pi)

/-- The function `f(T)`/`transcendental_eq(T)` handed to `mp.findroot` in both
source files: `T*log(1 + e/pi) - (1 + e**(-pi*T) + epsilon_BSM_value)`. -/
def transcendental_f (T : ℝ) : ℝ :=
  T * Real.log (1 + Real.exp 1 / Real.pi) - (1 + Real.exp (-Real.pi * T) + epsilon_BSM)

/-- The geometric coupling `𝒢 = 1/(e * pi * sqrt(2) * T_eq)` as a function of
the equilibrium root. -/
def gval (T : ℝ) : ℝ := 1 / (Real.exp 1 * Real.pi * Real.sqrt 2 * T)

end

namespace BSMVerification

noncomputable section

/-- `BSMVerification.verify_transcendental_equation` (cache effect): stores
`epsilon_BSM`, `T_eq` (the root returned by `mp.findroot(f, 1.0)`, passed in
as `Troot`) and `log_term`. -/
def verify_transcendental_equation (Troot : ℝ) (c : Cache) : Cache :=
  cacheSet (cacheSet (cacheSet c "epsilon_BSM" epsilon_BSM) "T_eq" Troot) "log_term" log_term

/-- `BSMVerification.verify_geometric_coupling`: on-demand trigger of the
solver stage when `'T_eq' not in self.results`, then
`𝒢 = 1/(e*pi*sqrt2*T_eq)` from the cached `T_eq`, plus the literal target
and the absolute deviation.  (`.getD 0` is unreachable filler: on the branch
where it would apply, `T_eq` has just been written.) -/
def verify_geometric_coupling (Troot : ℝ) (c : Cache) : Cache :=
  let c1 := if (cacheGet c "T_eq").isSome then c else verify_transcendental_equation Troot c
  let T_eq := (cacheGet c1 "T_eq").getD 0
  let g := 1 / (Real.exp 1 * Real.pi * Real.sqrt 2 * T_eq)
  cacheSet (cacheSet (cacheSet c1 "𝒢" g) "𝒢_target" 0.074660340411)
    "𝒢_error" |g - 0.074660340411|

/-- `BSMVerification.verify_zdc`: on-demand trigger of the geometric-coupling
stage when `'𝒢' not in self.results`, then `α_inv_pred = μ * 𝒢` for the
literal `μ = mp.mpf('1836.15267343')`, comparison against the literal
`α_inv_CODATA = mp.mpf('137.035999084')`, absolute and relative error. -/
def verify_zdc (Troot : ℝ) (c : Cache) : Cache :=
  let c1 := if (cacheGet c "𝒢").isSome then c else verify_geometric_coupling Troot c
  let g := (cacheGet c1 "𝒢").getD 0
  let α_inv_pred := 1836.15267343 * g
  let error := |α_inv_pred - 137.035999084|
  cacheSet (cacheSet (cacheSet (cacheSet c1 "α_inv_pred" α_inv_pred)
    "α_inv_CODATA" 137.035999084) "zdc_error" error)
    "zdc_rel_error" (error / 137.035999084)

/-- `term1 = 1/(2*sqrt2)` in `verify_qcd_scale`. -/
def term1 : ℝ := 1 / (2 * Real.sqrt 2)

/-- `term2 = (e-1)/(e+1)`. -/
def term2 : ℝ := (Real.exp 1 - 1) / (Real.exp 1 + 1)

/-- `term3 = 1/mp.log(1 + e/pi)`. -/
def term3 : ℝ := 1 / Real.log (1 + Real.exp 1 / Real.pi)

/-- `term4 = (N_c**2 - 1)/(2*N_c)` with `N_c = 3`. -/
def term4 : ℝ := ((3 : ℝ) ^ 2 - 1) / (2 * 3)

/-- `term5 = mp.mpf('2.14')`, the literal corrected `γ̄`. -/
def term5 : ℝ := 2.14

/-- `C_gyro = term1 * term2 * term3 * term4 * term5`. -/
def C_gyro : ℝ := term1 * term2 * term3 * term4 * term5

/-- `Λ_QCD_bare = (m_e_eV / α) * C_gyro / 1e6` with `m_e_eV = 510998.95` and
`α = 1/α_inv` for the CODATA literal `α_inv = mp.mpf('137.035999084')`
(not the predicted value from the ZDC stage). -/
def Λ_QCD_bare : ℝ := 510998.95 / (1 / 137.035999084) * C_gyro / 1000000

/-- `Λ_QCD_1GeV = Λ_QCD_bare * exp(2*pi/(b0*(1/α_s_Λ - 1/α_s_1GeV)))` with
`b0 = (11*3 - 2*3)/3`, `α_s_Λ = 1.0`, `α_s_1GeV = 0.45`. -/
def Λ_QCD_1GeV : ℝ :=
  Λ_QCD_bare * Real.exp (2 * Real.pi / ((11 * 3 - 2 * 3) / 3 * (1 / 1.0 - 1 / 0.45)))

/-- `BSMVerification.verify_qcd_scale`: on-demand trigger of the
geometric-coupling stage, then stores the (cache-independent) gyroscopic
factor and the bare and RG-evolved confinement scales.  The five sub-terms
`term1`–`term5` are local variables of the Python function and are not
written to the cache. -/
def verify_qcd_scale (Troot : ℝ) (c : Cache) : Cache :=
  let c1 := if (cacheGet c "𝒢").isSome then c else verify_geometric_coupling Troot c
  cacheSet (cacheSet (cacheSet c1 "C_gyro" C_gyro) "Λ_QCD_bare" Λ_QCD_bare)
    "Λ_QCD_1GeV" Λ_QCD_1GeV

/-- `hbar = mp.mpf('1.054571817e-34')` in `verify_gravitational_constant`. -/
def hbar : ℝ := 1.054571817e-34

/-- `c = mp.mpf('299792458')` (named `c_light` here because `c` is the cache
argument). -/
def c_light : ℝ := 299792458

/-- `BSMVerification.verify_gravitational_constant`: on-demand trigger of the
geometric-coupling stage when `'𝒢' not in self.results`, then
`M_s = (hbar/c)*(pi/sqrt2)*(1/(𝒢*T_eq))` and
`G_pred = (c**3/hbar)*(𝒢**2/M_s**2)` from the cached `𝒢` and `T_eq`,
plus the literal CODATA `G` and the literal drift value. -/
def verify_gravitational_constant (Troot : ℝ) (c : Cache) : Cache :=
  let c1 := if (cacheGet c "𝒢").isSome then c else verify_geometric_coupling Troot c
  let 𝒢 := (cacheGet c1 "𝒢").getD 0
  let T_eq := (cacheGet c1 "T_eq").getD 0
  let M_s := (hbar / c_light) * (Real.pi / Real.sqrt 2) * (1 / (𝒢 * T_eq))
  let G_pred := (c_light ^ 3 / hbar) * (𝒢 ^ 2 / M_s ^ 2)
  cacheSet (cacheSet (cacheSet (cacheSet c1 "M_s" M_s) "G_pred" G_pred)
    "G_CODATA" 6.67430e-11) "Ḡ_over_G" (-0.8e-12)

end

end BSMVerification

namespace BSMCalculator

noncomputable section

/-- `BSMCalculator.compute_geometric_factors`: always re-solves (no guard);
stores `T_eq` (the `mp.findroot` result, parameter `Troot`), the coupling
`𝒢 = 1/(e*pi*sqrt2*T_eq)` computed from the local root (not from the cache),
and the literal `epsilon_BSM`. -/
def compute_geometric_factors (Troot : ℝ) (c : Cache) : Cache :=
  cacheSet (cacheSet (cacheSet c "T_eq" Troot)
    "𝒢" (1 / (Real.exp 1 * Real.pi * Real.sqrt 2 * Troot))) "epsilon_BSM" epsilon_BSM

/-- `BSMCalculator.verify_zdc`: like `BSMVerification.verify_zdc` but triggers
`compute_geometric_factors` on demand and additionally stores the mass
ratio under the key `μ`. -/
def verify_zdc (Troot : ℝ) (c : Cache) : Cache :=
  let c1 := if (cacheGet c "𝒢").isSome then c else compute_geometric_factors Troot c
  let g := (cacheGet c1 "𝒢").getD 0
  let α_inv_pred := 1836.15267343 * g
  let error := |α_inv_pred - 137.035999084|
  cacheSet (cacheSet (cacheSet (cacheSet (cacheSet c1 "μ" 1836.15267343)
    "α_inv_pred" α_inv_pred) "α_inv_CODATA" 137.035999084) "zdc_error" error)
    "zdc_rel_error" (error / 137.035999084)

/-- `C_gyro` of `compute_qcd_scale`:
`C_gyro = (1/(2*sqrt2)) * ((e-1)/(e+1)) / log(1 + e/pi)` followed by
`C_gyro *= (N_c**2 - 1)/(2*N_c) * γ_mean` with `N_c = 3`, `γ_mean = 2.14`. -/
def C_gyro : ℝ :=
  (1 / (2 * Real.sqrt 2) * ((Real.exp 1 - 1) / (Real.exp 1 + 1)) /
    Real.log (1 + Real.exp 1 / Real.pi)) * (((3 : ℝ) ^ 2 - 1) / (2 * 3) * 2.14)

/-- `BSMCalculator.compute_qcd_scale`: on-demand trigger of `verify_zdc` when
`'α_inv_pred' not in self.results`, then `α = 1/self.results['α_inv_pred']`
(the predicted value, unlike `BSMVerification`),
`Λ_QCD_bare = (m_e_eV/α)*C_gyro/1e6`, and the approximate evolution
`Λ_QCD_1GeV = Λ_QCD_bare * exp(2*pi/(b0*2))` with `b0 = (11*3 - 2*3)/3`. -/
def compute_qcd_scale (Troot : ℝ) (c : Cache) : Cache :=
  let c1 := if (cacheGet c "α_inv_pred").isSome then c else verify_zdc Troot c
  let α := 1 / ((cacheGet c1 "α_inv_pred").getD 0)
  let Λbare := 510998.95 / α * C_gyro / 1000000
  let Λ1GeV := Λbare * Real.exp (2 * Real.pi / ((11 * 3 - 2 * 3) / 3 * 2))
  cacheSet (cacheSet (cacheSet c1 "Λ_QCD_bare" Λbare) "Λ_QCD_1GeV" Λ1GeV) "C_gyro" C_gyro

/-- `scipy.constants.hbar`, a binary double; modelled as its exact value. -/
def scipy_hbar : ℝ := 1.0545718176461565e-34

/-- `scipy.constants.c` (an exact integer-valued double). -/
def scipy_c : ℝ := 299792458

/-- `BSMCalculator.compute_gravitational_constant`: on-demand trigger of
`compute_geometric_factors` when `'𝒢' not in self.results`, then the same
`M_s` and `G_pred` formulas as `BSMVerification` but with the scipy float
constants; stores `G_pred`, the literal drift, and `M_s`. -/
def compute_gravitational_constant (Troot : ℝ) (c : Cache) : Cache :=
  let c1 := if (cacheGet c "𝒢").isSome then c else compute_geometric_factors Troot c
  let 𝒢 := (cacheGet c1 "𝒢").getD 0
  let T_eq := (cacheGet c1 "T_eq").getD 0
  let M_s := (scipy_hbar / scipy_c) * (Real.pi / Real.sqrt 2) * (1 / (𝒢 * T_eq))
  let G_pred := (scipy_c ^ 3 / scipy_hbar) * (𝒢 ^ 2 / M_s ^ 2)
  cacheSet (cacheSet (cacheSet c1 "G_pred" G_pred) "Ḡ_over_G" (-0.8e-12)) "M_s" M_s

end

end BSMCalculator

noncomputable section

/-- The error taxonomy relevant to the source: `mp.findroot` raises when the
iteration does not settle within its bounded number of steps (spec name
`ConvergenceError`); neither source file catches it, so it propagates. -/
inductive PipelineError where
  | convergenceError

/-- Python `int(x)` on an mpf: truncation toward zero. -/
def pyint (x : ℝ) : ℤ := if 0 ≤ x then ⌊x⌋ else ⌈x⌉

/-- Models `int(-mp.log10(rel_error))` as printed by
`BSMVerification.run_all_verifications` and `BSMCalculator.verify_zdc`.
There is no special case in the source for a zero relative error: on input
`0` the expression raises (mpmath's `log` of zero / conversion of the
resulting infinity to `int`), modelled as `none`. -/
def significant_digits (x : ℝ) : Option ℤ :=
  if 0 < x then some (pyint (-Real.logb 10 x)) else none

/-- The significant-digit figure of the report, read from the cache entry
`zdc_rel_error` exactly as the print statements do. -/
def zdc_significant_digits_report (c : Cache) : Option ℤ :=
  (cacheGet c "zdc_rel_error").bind significant_digits

end

namespace BSMVerification

noncomputable section

/-- `BSMVerification.__init__(precision)`: executes `mp.mp.dps = precision`
(mutating the process-wide mpmath precision, whose previous value is the
argument `_dps`) and creates the fresh empty `self.results`.  Returns the
new process-wide `mp.mp.dps` together with the instance's cache; stage
arithmetic later executes under whatever the global `mp.mp.dps` is at call
time. -/
def init (precision : ℕ) (_dps : ℕ) : ℕ × Cache := (precision, ([] : Cache))

/-- The solver stage with the `mp.findroot` outcome made explicit: `none`
models mpmath raising on non-convergence.  The raise happens before
`self.results.update`, so on failure the cache is returned untouched
together with the propagating error. -/
def verify_transcendental_equation_run (fr : Option ℝ) (c : Cache) :
    Cache × Option PipelineError :=
  match fr with
  | none => (c, some PipelineError.convergenceError)
  | some T => (verify_transcendental_equation T c, none)

/-- `BSMVerification.run_all_verifications` on a fresh instance (empty
cache): stages 1–5 in order; a solver failure in stage 1 aborts the run
(no later stage executes, no report is produced). -/
def run_all_verifications (fr : Option ℝ) : Cache × Option PipelineError :=
  match fr with
  | none => (([] : Cache), some PipelineError.convergenceError)
  | some T =>
    (verify_gravitational_constant T (verify_qcd_scale T (verify_zdc T
      (verify_geometric_coupling T (verify_transcendental_equation T ([] : Cache))))), none)

/-- The stage methods of a `BSMVerification` instance, for reasoning about
arbitrary call sequences. -/
inductive StageV where
  | te | gc | zdc | qcd | grav

/-- Dispatch a stage method call on the instance's cache. -/
def applyStageV (Troot : ℝ) : StageV → Cache → Cache
  | StageV.te => verify_transcendental_equation Troot
  | StageV.gc => verify_geometric_coupling Troot
  | StageV.zdc => verify_zdc Troot
  | StageV.qcd => verify_qcd_scale Troot
  | StageV.grav => verify_gravitational_constant Troot

/-- A sequence of stage-method calls on a freshly constructed instance
(whose `self.results` starts empty). -/
def runSeqV (Troot : ℝ) (l : List StageV) : Cache :=
  l.foldl (fun c s => applyStageV Troot s c) ([] : Cache)

/-- `M_s` as a closed form of the root (the value the gravitational stage
computes when `𝒢` and `T_eq` hold their canonical values). -/
def M_s_expr (T : ℝ) : ℝ := (hbar / c_light) * (Real.pi / Real.sqrt 2) * (1 / (gval T * T))

/-- `G_pred` as a closed form of the root. -/
def G_pred_expr (T : ℝ) : ℝ := (c_light ^ 3 / hbar) * (gval T ^ 2 / M_s_expr T ^ 2)

/-- The canonical valuation of every `BSMVerification` cache key as a
function of the solver root: each key, once written, always holds this
value. -/
def V (Troot : ℝ) : String → Option ℝ := fun k =>
  if k = "epsilon_BSM" then some epsilon_BSM
  else if k = "T_eq" then some Troot
  else if k = "log_term" then some log_term
  else if k = "𝒢" then some (gval Troot)
  else if k = "𝒢_target" then some 0.074660340411
  else if k = "𝒢_error" then some |gval Troot - 0.074660340411|
  else if k = "α_inv_pred" then some (1836.15267343 * gval Troot)
  else if k = "α_inv_CODATA" then some 137.035999084
  else if k = "zdc_error" then some |1836.15267343 * gval Troot - 137.035999084|
  else if k = "zdc_rel_error" then
    some (|1836.15267343 * gval Troot - 137.035999084| / 137.035999084)
  else if k = "C_gyro" then some C_gyro
  else if k = "Λ_QCD_bare" then some Λ_QCD_bare
  else if k = "Λ_QCD_1GeV" then some Λ_QCD_1GeV
  else if k = "M_s" then some (M_s_expr Troot)
  else if k = "G_pred" then some (G_pred_expr Troot)
  else if k = "G_CODATA" then some 6.67430e-11
  else if k = "Ḡ_over_G" then some (-0.8e-12)
  else none

end

end BSMVerification

namespace BSMCalculator

noncomputable section

/-- `BSMCalculator.__init__(precision)`: same global `mp.mp.dps = precision`
assignment as `BSMVerification.__init__`, plus fresh `self.results` and
`self.constants`. -/
def init (precision : ℕ) (_dps : ℕ) : ℕ × Cache := (precision, ([] : Cache))

/-- `compute_geometric_factors` with the `mp.findroot` outcome explicit:
on non-convergence mpmath raises before any `self.results.update`. -/
def compute_geometric_factors_run (fr : Option ℝ) (c : Cache) :
    Cache × Option PipelineError :=
  match fr with
  | none => (c, some PipelineError.convergenceError)
  | some T => (compute_geometric_factors T c, none)

/-- `BSMCalculator.run_complete_analysis` on a fresh instance: the four
stages in order; a solver failure in stage 1 aborts the run. -/
def run_complete_analysis (fr : Option ℝ) : Cache × Option PipelineError :=
  match fr with
  | none => (([] : Cache), some PipelineError.convergenceError)
  | some T =>
    (compute_gravitational_constant T (compute_qcd_scale T (verify_zdc T
      (compute_geometric_factors T ([] : Cache)))), none)

/-- The stage methods of a `BSMCalculator` instance. -/
inductive StageC where
  | gf | zdc | qcd | grav

/-- Dispatch a stage method call on the instance's cache. -/
def applyStageC (Troot : ℝ) : StageC → Cache → Cache
  | StageC.gf => compute_geometric_factors Troot
  | StageC.zdc => verify_zdc Troot
  | StageC.qcd => compute_qcd_scale Troot
  | StageC.grav => compute_gravitational_constant Troot

/-- A sequence of stage-method calls on a freshly constructed instance. -/
def runSeqC (Troot : ℝ) (l : List StageC) : Cache :=
  l.foldl (fun c s => applyStageC Troot s c) ([] : Cache)

/-- `M_s` as a closed form of the root (scipy constants). -/
def M_s_expr (T : ℝ) : ℝ :=
  (scipy_hbar / scipy_c) * (Real.pi / Real.sqrt 2) * (1 / (gval T * T))

/-- `G_pred` as a closed form of the root (scipy constants). -/
def G_pred_expr (T : ℝ) : ℝ := (scipy_c ^ 3 / scipy_hbar) * (gval T ^ 2 / M_s_expr T ^ 2)

/-- The canonical valuation of every `BSMCalculator` cache key as a function
of the solver root. -/
def V (Troot : ℝ) : String → Option ℝ := fun k =>
  if k = "T_eq" then some Troot
  else if k = "𝒢" then some (gval Troot)
  else if k = "epsilon_BSM" then some epsilon_BSM
  else if k = "μ" then some 1836.15267343
  else if k = "α_inv_pred" then some (1836.15267343 * gval Troot)
  else if k = "α_inv_CODATA" then some 137.035999084
  else if k = "zdc_error" then some |1836.15267343 * gval Troot - 137.035999084|
  else if k = "zdc_rel_error" then
    some (|1836.15267343 * gval Troot - 137.035999084| / 137.035999084)
  else if k = "Λ_QCD_bare" then
    some (510998.95 / (1 / (1836.15267343 * gval Troot)) * C_gyro / 1000000)
  else if k = "Λ_QCD_1GeV" then
    some (510998.95 / (1 / (1836.15267343 * gval Troot)) * C_gyro / 1000000 *
      Real.exp (2 * Real.pi / ((11 * 3 - 2 * 3) / 3 * 2)))
  else if k = "C_gyro" then some C_gyro
  else if k = "G_pred" then some (G_pred_expr Troot)
  else if k = "Ḡ_over_G" then some (-0.8e-12)
  else if k = "M_s" then some (M_s_expr Troot)
  else none

end

end BSMCalculator

noncomputable section

/-- A cache state with the upstream quantities of the QCD stage present,
used as the concrete input of several refutations: `𝒢 = 1` and its
consistent ZDC prediction `α_inv_pred = 1836.15267343 * 1`. -/
def demoCache : Cache :=
  [("α_inv_pred", (1836.15267343 : ℝ)), ("𝒢", 1), ("T_eq", 1)]

/-- A cache whose `𝒢` makes the ZDC prediction match CODATA exactly, so the
stored relative error is exactly `0`. -/
def zeroErrCache : Cache := [("𝒢", (137.035999084 : ℝ) / 1836.15267343)]

/-- A cache with only the upstream coupling present, for key-set reasoning
about the QCD stage. -/
def gOnlyCache : Cache := [("𝒢", (1 : ℝ))]

/-- A cache conforms to a valuation when every binding it holds agrees with
the valuation (used to show every reachable cache carries canonical
values). -/
def Conforms (V : String → Option ℝ) (c : Cache) : Prop :=
  ∀ k v, cacheGet c k = some v → V k = some v

/-- Every binding of `c` is still present, with the same value, in `c'`. -/
def ExtendsC (c c' : Cache) : Prop :=
  ∀ k v, cacheGet c k = some v → cacheGet c' k = some v

/-- On every reachable cache, if the coupling has been written then the root
has been, too (the geometric stage ensures its dependency first). -/
def PresTV (c : Cache) : Prop :=
  (cacheGet c "𝒢").isSome → (cacheGet c "T_eq").isSome

end

theorem cacheGet_set_self (c : Cache) (k : String) (v : ℝ) :
    cacheGet (cacheSet c k v) k = some v := by
  simp [cacheSet, cacheGet]

theorem cacheGet_set_ne (c : Cache) (k k' : String) (v : ℝ) (h : k ≠ k') :
    cacheGet (cacheSet c k' v) k = cacheGet c k := by
  simp [cacheSet, cacheGet, h]

theorem cacheGet_isSome_set (c : Cache) (k k' : String) (v : ℝ)
    (h : (cacheGet c k).isSome) : (cacheGet (cacheSet c k' v) k).isSome := by
  by_cases e : k = k'
  · subst e; rw [cacheGet_set_self]; rfl
  · rwa [cacheGet_set_ne _ _ _ _ e]

theorem cacheGet_isSome_iff_mem (c : Cache) (k : String) :
    (cacheGet c k).isSome ↔ k ∈ cacheKeys c := by
  induction c with
  | nil => simp [cacheGet, cacheKeys]
  | cons p t ih =>
    obtain ⟨k', v⟩ := p
    by_cases e : k = k' <;> simp [cacheGet, cacheKeys, e, ih]

theorem cacheKeys_set (c : Cache) (k : String) (v : ℝ) :
    cacheKeys (cacheSet c k v) = k :: cacheKeys c := rfl

theorem conforms_set {V : String → Option ℝ} {c : Cache} {k : String} {v : ℝ}
    (h : Conforms V c) (hv : V k = some v) : Conforms V (cacheSet c k v) := by
  intro k' v' h'
  by_cases e : k' = k
  · subst e
    rw [cacheGet_set_self] at h'
    cases h'
    exact hv
  · rw [cacheGet_set_ne _ _ _ _ e] at h'
    exact h _ _ h'

theorem extends_set {V : String → Option ℝ} {c : Cache} {k : String} {v : ℝ}
    (h : Conforms V c) (hv : V k = some v) : ExtendsC c (cacheSet c k v) := by
  intro k' v' h'
  by_cases e : k' = k
  · subst e
    have h2 := h _ _ h'
    rw [hv] at h2
    cases h2
    exact cacheGet_set_self _ _ _
  · rw [cacheGet_set_ne _ _ _ _ e]
    exact h'

theorem extends_trans {a b c : Cache} (h1 : ExtendsC a b) (h2 : ExtendsC b c) :
    ExtendsC a c := fun k v h => h2 k v (h1 k v h)

theorem get_eq_of_conforms {V : String → Option ℝ} {c : Cache} {k : String} {v : ℝ}
    (h : Conforms V c) (hs : (cacheGet c k).isSome) (hv : V k = some v) :
    cacheGet c k = some v := by
  obtain ⟨w, hw⟩ := Option.isSome_iff_exists.mp hs
  have h2 := h _ _ hw
  rw [hv] at h2
  cases h2
  exact hw

theorem gcV_writes_G (Troot : ℝ) (c : Cache) :
    cacheGet (BSMVerification.verify_geometric_coupling Troot c) "𝒢" =
      some (1 / (Real.exp 1 * Real.pi * Real.sqrt 2 *
        ((cacheGet (if (cacheGet c "T_eq").isSome then c
          else BSMVerification.verify_transcendental_equation Troot c) "T_eq").getD 0))) := by
  simp only [BSMVerification.verify_geometric_coupling]
  rw [cacheGet_set_ne _ _ _ _ (by decide), cacheGet_set_ne _ _ _ _ (by decide),
    cacheGet_set_self]

theorem gfC_writes_G (Troot : ℝ) (c : Cache) :
    cacheGet (BSMCalculator.compute_geometric_factors Troot c) "𝒢" =
      some (1 / (Real.exp 1 * Real.pi * Real.sqrt 2 * Troot)) := by
  simp only [BSMCalculator.compute_geometric_factors]
  rw [cacheGet_set_ne _ _ _ _ (by decide), cacheGet_set_self]

theorem zdcV_spec (Troot : ℝ) (c : Cache) : ∃ g : ℝ,
    cacheGet (BSMVerification.verify_zdc Troot c) "𝒢" = some g ∧
    cacheGet (BSMVerification.verify_zdc Troot c) "α_inv_pred" =
      some (1836.15267343 * g) ∧
    cacheGet (BSMVerification.verify_zdc Troot c) "zdc_error" =
      some |1836.15267343 * g - 137.035999084| ∧
    cacheGet (BSMVerification.verify_zdc Troot c) "zdc_rel_error" =
      some (|1836.15267343 * g - 137.035999084| / 137.035999084) := by
  obtain ⟨g, hg⟩ : ∃ g, cacheGet (if (cacheGet c "𝒢").isSome then c
      else BSMVerification.verify_geometric_coupling Troot c) "𝒢" = some g := by
    by_cases h : (cacheGet c "𝒢").isSome
    · rw [if_pos h]; exact Option.isSome_iff_exists.mp h
    · rw [if_neg h]; exact ⟨_, gcV_writes_G Troot c⟩
  refine ⟨g, ?_, ?_, ?_, ?_⟩ <;>
    simp only [BSMVerification.verify_zdc, hg, Option.getD_some]
  · rw [cacheGet_set_ne _ _ _ _ (by decide), cacheGet_set_ne _ _ _ _ (by decide),
      cacheGet_set_ne _ _ _ _ (by decide), cacheGet_set_ne _ _ _ _ (by decide)]
    exact hg
  · rw [cacheGet_set_ne _ _ _ _ (by decide), cacheGet_set_ne _ _ _ _ (by decide),
      cacheGet_set_ne _ _ _ _ (by decide), cacheGet_set_self]
  · rw [cacheGet_set_ne _ _ _ _ (by decide), cacheGet_set_self]
  · rw [cacheGet_set_self]

theorem zdcC_spec (Troot : ℝ) (c : Cache) : ∃ g : ℝ,
    cacheGet (BSMCalculator.verify_zdc Troot c) "𝒢" = some g ∧
    cacheGet (BSMCalculator.verify_zdc Troot c) "α_inv_pred" =
      some (1836.15267343 * g) ∧
    cacheGet (BSMCalculator.verify_zdc Troot c) "zdc_error" =
      some |1836.15267343 * g - 137.035999084| ∧
    cacheGet (BSMCalculator.verify_zdc Troot c) "zdc_rel_error" =
      some (|1836.15267343 * g - 137.035999084| / 137.035999084) := by
  obtain ⟨g, hg⟩ : ∃ g, cacheGet (if (cacheGet c "𝒢").isSome then c
      else BSMCalculator.compute_geometric_factors Troot c) "𝒢" = some g := by
    by_cases h : (cacheGet c "𝒢").isSome
    · rw [if_pos h]; exact Option.isSome_iff_exists.mp h
    · rw [if_neg h]; exact ⟨_, gfC_writes_G Troot c⟩
  refine ⟨g, ?_, ?_, ?_, ?_⟩ <;>
    simp only [BSMCalculator.verify_zdc, hg, Option.getD_some]
  · rw [cacheGet_set_ne _ _ _ _ (by decide), cacheGet_set_ne _ _ _ _ (by decide),
      cacheGet_set_ne _ _ _ _ (by decide), cacheGet_set_ne _ _ _ _ (by decide),
      cacheGet_set_ne _ _ _ _ (by decide)]
    exact hg
  · rw [cacheGet_set_ne _ _ _ _ (by decide), cacheGet_set_ne _ _ _ _ (by decide),
      cacheGet_set_ne _ _ _ _ (by decide), cacheGet_set_self]
  · rw [cacheGet_set_ne _ _ _ _ (by decide), cacheGet_set_self]
  · rw [cacheGet_set_self]

/-- C1: every run of the Zero-Discrepancy Comparison stage (in either
implementation, from any cache state) stores `α_inv_pred` equal to the
literal mass ratio `1836.15267343` times the cached coupling `𝒢`, and
stores `zdc_rel_error` equal to `|1836.15267343·𝒢 − 137.035999084| /
137.035999084`, computed exactly from those values. -/
theorem C1_zdc_cached_prediction_and_rel_error :
    (∀ (Troot : ℝ) (c : Cache), ∃ g : ℝ,
      cacheGet (BSMVerification.verify_zdc Troot c) "𝒢" = some g ∧
      cacheGet (BSMVerification.verify_zdc Troot c) "α_inv_pred" =
        some (1836.15267343 * g) ∧
      cacheGet (BSMVerification.verify_zdc Troot c) "zdc_error" =
        some |1836.15267343 * g - 137.035999084| ∧
      cacheGet (BSMVerification.verify_zdc Troot c) "zdc_rel_error" =
        some (|1836.15267343 * g - 137.035999084| / 137.035999084)) ∧
    (∀ (Troot : ℝ) (c : Cache), ∃ g : ℝ,
      cacheGet (BSMCalculator.verify_zdc Troot c) "𝒢" = some g ∧
      cacheGet (BSMCalculator.verify_zdc Troot c) "α_inv_pred" =
        some (1836.15267343 * g) ∧
      cacheGet (BSMCalculator.verify_zdc Troot c) "zdc_error" =
        some |1836.15267343 * g - 137.035999084| ∧
      cacheGet (BSMCalculator.verify_zdc Troot c) "zdc_rel_error" =
        some (|1836.15267343 * g - 137.035999084| / 137.035999084)) :=
  ⟨zdcV_spec, zdcC_spec⟩

theorem transcendental_f_neg_at_zero : transcendental_f 0 < 0 := by
  unfold transcendental_f epsilon_BSM
  simp only [zero_mul, mul_zero, neg_zero, Real.exp_zero]
  norm_num

theorem log_term_lower_bound : (6 : ℝ) / 13 ≤ log_term := by
  have he : (2.7 : ℝ) < Real.exp 1 := lt_trans (by norm_num) Real.exp_one_gt_d9
  have hπ315 : Real.pi < 3.15 := Real.pi_lt_d2
  have hπpos : (0 : ℝ) < Real.pi := Real.pi_pos
  have hratio : (2.7 : ℝ) / 3.15 ≤ Real.exp 1 / Real.pi :=
    div_le_div₀ (Real.exp_pos 1).le he.le hπpos hπ315.le
  have hxpos : (0 : ℝ) < 1 + Real.exp 1 / Real.pi := by positivity
  have h1 := Real.log_le_sub_one_of_pos (inv_pos.mpr hxpos)
  rw [Real.log_inv] at h1
  have hinv : (1 + Real.exp 1 / Real.pi)⁻¹ ≤ ((1 : ℝ) + 2.7 / 3.15)⁻¹ :=
    inv_anti₀ (by norm_num) (by linarith)
  have : ((1 : ℝ) + 2.7 / 3.15)⁻¹ = 7 / 13 := by norm_num
  unfold log_term
  linarith

theorem transcendental_f_pos_at_three : 0 < transcendental_f 3 := by
  have hexp1 : Real.exp (-Real.pi * 3) ≤ Real.exp (-(9 : ℝ)) := by
    have := Real.pi_gt_three
    apply Real.exp_le_exp.mpr
    nlinarith
  have hexp2 : Real.exp (-(9 : ℝ)) < 1 / 10 := by
    rw [Real.exp_neg]
    have h10 : (10 : ℝ) < Real.exp 9 := by
      have := Real.add_one_lt_exp (by norm_num : (9 : ℝ) ≠ 0)
      linarith
    have := one_div_lt_one_div_of_lt (by norm_num : (0 : ℝ) < 10) h10
    rw [one_div (Real.exp 9)] at this
    linarith
  have hA := log_term_lower_bound
  unfold log_term at hA
  unfold transcendental_f epsilon_BSM
  nlinarith

theorem transcendental_f_continuous : Continuous transcendental_f := by
  unfold transcendental_f
  exact (continuous_id.mul continuous_const).sub
    ((continuous_const.add
      (Real.continuous_exp.comp (continuous_const.mul continuous_id))).add continuous_const)

/-- C2: for every working precision `P`, the value `T_eq` computed by the
transcendental-equilibrium solver (modelled in exact arithmetic: the root
of the source's `f`, which `mp.findroot` approximates to working precision)
satisfies `|T·ln(1+e/π) − 1 − e^(−πT) − ε| < 10^(−(P−5))` for the literal
`ε = 4.350917e-14`: a root exists (by the intermediate value theorem on
`[0,3]`) and its residual, exactly `0`, is below the tolerance. -/
theorem C2_transcendental_residual_bound (P : ℕ) :
    ∃ T : ℝ, transcendental_f T = 0 ∧
      |T * Real.log (1 + Real.exp 1 / Real.pi) - 1 - Real.exp (-Real.pi * T) -
        epsilon_BSM| < (10 : ℝ) ^ (-((P : ℤ) - 5)) := by
  have hcont : ContinuousOn transcendental_f (Set.Icc 0 3) :=
    transcendental_f_continuous.continuousOn
  have hsub := intermediate_value_Icc (by norm_num : (0 : ℝ) ≤ 3) hcont
  have h0mem : (0 : ℝ) ∈ Set.Icc (transcendental_f 0) (transcendental_f 3) :=
    ⟨transcendental_f_neg_at_zero.le, transcendental_f_pos_at_three.le⟩
  obtain ⟨T, _hT, hfT⟩ := hsub h0mem
  refine ⟨T, hfT, ?_⟩
  have heq : T * Real.log (1 + Real.exp 1 / Real.pi) - 1 - Real.exp (-Real.pi * T) -
      epsilon_BSM = transcendental_f T := by
    unfold transcendental_f; ring
  rw [heq, hfT, abs_zero]
  positivity

theorem zeroErr_rel_error :
    cacheGet (BSMVerification.verify_zdc 1 zeroErrCache) "zdc_rel_error" = some 0 := by
  have hG : cacheGet zeroErrCache "𝒢" = some ((137.035999084 : ℝ) / 1836.15267343) := rfl
  have hval : |1836.15267343 * ((137.035999084 : ℝ) / 1836.15267343) - 137.035999084| /
      137.035999084 = 0 := by norm_num
  simp [BSMVerification.verify_zdc, hG, hval, cacheGet_set_self]

/-- C5 counterexample: on the concrete cache whose coupling makes the ZDC
prediction match CODATA exactly, the stored relative error is exactly `0`
and the report's significant-digit computation `int(-mp.log10(...))` fails
(modelled `none`) instead of reporting that all precision digits match:
the source has no special case for a zero relative error. -/
theorem C5_counterexample_zero_rel_error_raises :
    zdc_significant_digits_report (BSMVerification.verify_zdc 1 zeroErrCache) = none := by
  rw [zdc_significant_digits_report, zeroErr_rel_error]
  simp [significant_digits]

/-- C5 (amended): whenever the ZDC stage stores a relative error of exactly
zero, the report's significant-digit figure is an arithmetic error
(`int(-mp.log10(0))`, modelled `none`), not a report that all precision
digits match — the zero guard demanded by the spec does not exist. -/
theorem C5_amended_no_zero_guard :
    ∀ (Troot : ℝ) (c : Cache),
      cacheGet (BSMVerification.verify_zdc Troot c) "zdc_rel_error" = some 0 →
      zdc_significant_digits_report (BSMVerification.verify_zdc Troot c) = none := by
  intro Troot c h
  rw [zdc_significant_digits_report, h]
  simp [significant_digits]

/-- C5 witness: the amended statement applied at the concrete zero-error
input. -/
theorem C5_amended_witness :
    zdc_significant_digits_report (BSMVerification.verify_zdc 1 zeroErrCache) = none :=
  C5_amended_no_zero_guard 1 zeroErrCache zeroErr_rel_error

/-- C6: if `mp.findroot` does not settle, the solver stage of either
implementation fails with the propagating convergence error while leaving
the instance's cache exactly as it was (no `T_eq` or any other partial
write), and the driver aborts with that error and an empty cache — in
particular `T_eq` is absent from the failed run's cache. -/
theorem C6_convergence_failure_propagates :
    (∀ c : Cache, BSMVerification.verify_transcendental_equation_run none c =
      (c, some PipelineError.convergenceError)) ∧
    BSMVerification.run_all_verifications none =
      (([] : Cache), some PipelineError.convergenceError) ∧
    cacheGet (BSMVerification.run_all_verifications none).1 "T_eq" = none ∧
    (∀ c : Cache, BSMCalculator.compute_geometric_factors_run none c =
      (c, some PipelineError.convergenceError)) ∧
    BSMCalculator.run_complete_analysis none =
      (([] : Cache), some PipelineError.convergenceError) ∧
    cacheGet (BSMCalculator.run_complete_analysis none).1 "T_eq" = none :=
  ⟨fun _ => rfl, rfl, rfl, fun _ => rfl, rfl, rfl⟩

/-- C7 counterexample: construct a first pipeline with precision 100, then a
second with precision 50; the process-wide mpmath precision under which the
first instance's stages subsequently compute is now 50, not the 100 given
at its construction — `mp.mp.dps` is shared, not per-instance. -/
theorem C7_counterexample_precision_is_global :
    (BSMVerification.init 50 (BSMVerification.init 100 0).1).1 = 50 ∧ (50 : ℕ) ≠ 100 :=
  ⟨rfl, by decide⟩

/-- C7 (amended): the precision context is process-wide (`mp.mp.dps`);
constructing any pipeline instance overwrites it, so after a second
construction every instance's subsequent stage arithmetic runs under the
second instance's precision (last construction wins), whichever of the two
classes is involved. -/
theorem C7_amended_last_construction_wins :
    ∀ (d p1 p2 : ℕ),
      (BSMVerification.init p2 (BSMVerification.init p1 d).1).1 = p2 ∧
      (BSMCalculator.init p2 (BSMVerification.init p1 d).1).1 = p2 ∧
      (BSMCalculator.init p2 (BSMCalculator.init p1 d).1).1 = p2 ∧
      (BSMVerification.init p2 (BSMCalculator.init p1 d).1).1 = p2 :=
  fun _ _ _ => ⟨rfl, rfl, rfl, rfl⟩

theorem log_term_pos : 0 < Real.log (1 + Real.exp 1 / Real.pi) := by
  have h : 0 < Real.exp 1 / Real.pi := div_pos (Real.exp_pos 1) Real.pi_pos
  exact Real.log_pos (by linarith)

theorem C_gyroV_pos : 0 < BSMVerification.C_gyro := by
  unfold BSMVerification.C_gyro BSMVerification.term1 BSMVerification.term2
    BSMVerification.term3 BSMVerification.term4 BSMVerification.term5
  have h1 : 0 < Real.sqrt 2 := Real.sqrt_pos.mpr (by norm_num)
  have h2 : (1 : ℝ) < Real.exp 1 := by have := Real.exp_one_gt_d9; linarith
  have h3 := log_term_pos
  have ht1 : (0 : ℝ) < 1 / (2 * Real.sqrt 2) := by positivity
  have ht2 : (0 : ℝ) < (Real.exp 1 - 1) / (Real.exp 1 + 1) :=
    div_pos (by linarith) (by linarith)
  have ht3 : (0 : ℝ) < 1 / Real.log (1 + Real.exp 1 / Real.pi) := by positivity
  have ht4 : (0 : ℝ) < ((3 : ℝ) ^ 2 - 1) / (2 * 3) := by norm_num
  exact mul_pos (mul_pos (mul_pos (mul_pos ht1 ht2) ht3) ht4) (by norm_num)

theorem C_gyro_calculator_eq : BSMCalculator.C_gyro = BSMVerification.C_gyro := by
  unfold BSMCalculator.C_gyro BSMVerification.C_gyro BSMVerification.term1
    BSMVerification.term2 BSMVerification.term3 BSMVerification.term4 BSMVerification.term5
  ring

theorem qcdV_gets (Troot : ℝ) (c : Cache) :
    cacheGet (BSMVerification.verify_qcd_scale Troot c) "C_gyro" =
      some BSMVerification.C_gyro ∧
    cacheGet (BSMVerification.verify_qcd_scale Troot c) "Λ_QCD_bare" =
      some BSMVerification.Λ_QCD_bare ∧
    cacheGet (BSMVerification.verify_qcd_scale Troot c) "Λ_QCD_1GeV" =
      some BSMVerification.Λ_QCD_1GeV := by
  refine ⟨?_, ?_, ?_⟩ <;> simp only [BSMVerification.verify_qcd_scale]
  · rw [cacheGet_set_ne _ _ _ _ (by decide), cacheGet_set_ne _ _ _ _ (by decide),
      cacheGet_set_self]
  · rw [cacheGet_set_ne _ _ _ _ (by decide), cacheGet_set_self]
  · rw [cacheGet_set_self]

theorem qcdC_gets (Troot : ℝ) (c : Cache) (p : ℝ)
    (hp : cacheGet c "α_inv_pred" = some p) :
    cacheGet (BSMCalculator.compute_qcd_scale Troot c) "C_gyro" =
      some BSMCalculator.C_gyro ∧
    cacheGet (BSMCalculator.compute_qcd_scale Troot c) "Λ_QCD_bare" =
      some (510998.95 / (1 / p) * BSMCalculator.C_gyro / 1000000) ∧
    cacheGet (BSMCalculator.compute_qcd_scale Troot c) "Λ_QCD_1GeV" =
      some (510998.95 / (1 / p) * BSMCalculator.C_gyro / 1000000 *
        Real.exp (2 * Real.pi / ((11 * 3 - 2 * 3) / 3 * 2))) := by
  have hs : (cacheGet c "α_inv_pred").isSome = true := by rw [hp]; rfl
  refine ⟨?_, ?_, ?_⟩ <;> simp only [BSMCalculator.compute_qcd_scale] <;>
    rw [if_pos hs] <;> rw [hp] <;> simp only [Option.getD_some]
  · rw [cacheGet_set_self]
  · rw [cacheGet_set_ne _ _ _ _ (by decide), cacheGet_set_ne _ _ _ _ (by decide),
      cacheGet_set_self]
  · rw [cacheGet_set_ne _ _ _ _ (by decide), cacheGet_set_self]

/-- C3 counterexample: with identical cached upstream values
(`𝒢 = 1`, `α_inv_pred = 1836.15267343·𝒢`, `T_eq = 1`) the two QCD-stage
implementations store different bare confinement scales
(`BSMVerification` scales by the CODATA literal, `BSMCalculator` by the
cached predicted `α⁻¹`), so they are not equivalent. -/
theorem C3_counterexample_bare_scales_differ :
    cacheGet (BSMVerification.verify_qcd_scale 1 demoCache) "Λ_QCD_bare" ≠
      cacheGet (BSMCalculator.compute_qcd_scale 1 demoCache) "Λ_QCD_bare" := by
  have h1 := (qcdV_gets 1 demoCache).2.1
  have hp : cacheGet demoCache "α_inv_pred" = some (1836.15267343 : ℝ) := rfl
  have h2 := (qcdC_gets 1 demoCache _ hp).2.1
  rw [h1, h2]
  intro h
  have h3 := Option.some.inj h
  rw [C_gyro_calculator_eq] at h3
  unfold BSMVerification.Λ_QCD_bare at h3
  have hpos := C_gyroV_pos
  norm_num at h3
  nlinarith [hpos, h3]

/-- C3 (amended): the two QCD-stage implementations agree on `C_gyro`, but
with the same cached upstream values they disagree on the scales:
`BSMVerification` computes the bare scale from the CODATA literal
`137.035999084` and evolves it by `exp(−2π/11)`, while `BSMCalculator`
computes it from the cached predicted `α⁻¹` and evolves it by `exp(π/9)`. -/
theorem C3_amended_qcd_stage_comparison :
    ∀ (Troot : ℝ) (c : Cache) (p : ℝ), cacheGet c "α_inv_pred" = some p →
      cacheGet (BSMVerification.verify_qcd_scale Troot c) "C_gyro" =
        cacheGet (BSMCalculator.compute_qcd_scale Troot c) "C_gyro" ∧
      cacheGet (BSMVerification.verify_qcd_scale Troot c) "Λ_QCD_bare" =
        some (510998.95 / (1 / 137.035999084) * BSMVerification.C_gyro / 1000000) ∧
      cacheGet (BSMCalculator.compute_qcd_scale Troot c) "Λ_QCD_bare" =
        some (510998.95 / (1 / p) * BSMVerification.C_gyro / 1000000) ∧
      cacheGet (BSMVerification.verify_qcd_scale Troot c) "Λ_QCD_1GeV" =
        some (510998.95 / (1 / 137.035999084) * BSMVerification.C_gyro / 1000000 *
          Real.exp (-(2 * Real.pi / 11))) ∧
      cacheGet (BSMCalculator.compute_qcd_scale Troot c) "Λ_QCD_1GeV" =
        some (510998.95 / (1 / p) * BSMVerification.C_gyro / 1000000 *
          Real.exp (Real.pi / 9)) := by
  intro Troot c p hp
  obtain ⟨hv1, hv2, hv3⟩ := qcdV_gets Troot c
  obtain ⟨hc1, hc2, hc3⟩ := qcdC_gets Troot c p hp
  have hb : BSMVerification.Λ_QCD_bare =
      510998.95 / (1 / 137.035999084) * BSMVerification.C_gyro / 1000000 := rfl
  have hexpV : (2 * Real.pi / ((11 * 3 - 2 * 3) / 3 * (1 / 1.0 - 1 / 0.45)) : ℝ) =
      -(2 * Real.pi / 11) := by
    rw [show ((11 * 3 - 2 * 3) / 3 * (1 / 1.0 - 1 / 0.45) : ℝ) = -11 by norm_num]
    ring
  have hexpC : (2 * Real.pi / ((11 * 3 - 2 * 3) / 3 * 2) : ℝ) = Real.pi / 9 := by
    rw [show ((11 * 3 - 2 * 3) / 3 * 2 : ℝ) = 18 by norm_num]
    ring
  refine ⟨?_, ?_, ?_, ?_, ?_⟩
  · rw [hv1, hc1, C_gyro_calculator_eq]
  · rw [hv2, hb]
  · rw [hc2, C_gyro_calculator_eq]
  · rw [hv3]
    unfold BSMVerification.Λ_QCD_1GeV
    rw [hexpV, hb]
  · rw [hc3, C_gyro_calculator_eq, hexpC]

/-- C3 witness: the amended comparison instantiated at the concrete shared
upstream cache. -/
theorem C3_amended_witness :
    cacheGet (BSMVerification.verify_qcd_scale 1 demoCache) "C_gyro" =
      cacheGet (BSMCalculator.compute_qcd_scale 1 demoCache) "C_gyro" ∧
    cacheGet (BSMVerification.verify_qcd_scale 1 demoCache) "Λ_QCD_bare" =
      some (510998.95 / (1 / 137.035999084) * BSMVerification.C_gyro / 1000000) ∧
    cacheGet (BSMCalculator.compute_qcd_scale 1 demoCache) "Λ_QCD_bare" =
      some (510998.95 / (1 / 1836.15267343) * BSMVerification.C_gyro / 1000000) ∧
    cacheGet (BSMVerification.verify_qcd_scale 1 demoCache) "Λ_QCD_1GeV" =
      some (510998.95 / (1 / 137.035999084) * BSMVerification.C_gyro / 1000000 *
        Real.exp (-(2 * Real.pi / 11))) ∧
    cacheGet (BSMCalculator.compute_qcd_scale 1 demoCache) "Λ_QCD_1GeV" =
      some (510998.95 / (1 / 1836.15267343) * BSMVerification.C_gyro / 1000000 *
        Real.exp (Real.pi / 9)) :=
  C3_amended_qcd_stage_comparison 1 demoCache 1836.15267343 rfl

/-- C4 counterexample: at the concrete upstream cache (whose cached ZDC
prediction is `α_inv_pred = 1836.15267343`), `BSMVerification`'s QCD stage
does not store the bare scale demanded by the claim (electron mass divided
by the reciprocal of the predicted `α⁻¹`, times `C_gyro`, divided by 10⁶):
it uses the CODATA literal instead. -/
theorem C4_counterexample_bare_scale_not_from_predicted_alpha :
    cacheGet (BSMVerification.verify_qcd_scale 1 demoCache) "Λ_QCD_bare" ≠
      some (510998.95 / (1 / 1836.15267343) * BSMVerification.C_gyro / 1000000) := by
  have h1 := (qcdV_gets 1 demoCache).2.1
  rw [h1]
  intro h
  have h3 := Option.some.inj h
  unfold BSMVerification.Λ_QCD_bare at h3
  have hpos := C_gyroV_pos
  norm_num at h3
  nlinarith [hpos, h3]

/-- C4 (amended): only `BSMCalculator.compute_qcd_scale` computes the bare
confinement scale from the reciprocal of the cached predicted `α⁻¹`;
`BSMVerification.verify_qcd_scale` computes it from the reciprocal of the
CODATA literal `137.035999084`. -/
theorem C4_amended_bare_scale_alpha_sources :
    ∀ (Troot : ℝ) (c : Cache) (p : ℝ), cacheGet c "α_inv_pred" = some p →
      cacheGet (BSMCalculator.compute_qcd_scale Troot c) "Λ_QCD_bare" =
        some (510998.95 / (1 / p) * BSMCalculator.C_gyro / 1000000) ∧
      cacheGet (BSMVerification.verify_qcd_scale Troot c) "Λ_QCD_bare" =
        some (510998.95 / (1 / 137.035999084) * BSMVerification.C_gyro / 1000000) :=
  fun Troot c p hp => ⟨(qcdC_gets Troot c p hp).2.1, (qcdV_gets Troot c).2.1⟩

/-- C4 witness: the amended statement at the concrete upstream cache. -/
theorem C4_amended_witness :
    cacheGet (BSMCalculator.compute_qcd_scale 1 demoCache) "Λ_QCD_bare" =
      some (510998.95 / (1 / 1836.15267343) * BSMCalculator.C_gyro / 1000000) ∧
    cacheGet (BSMVerification.verify_qcd_scale 1 demoCache) "Λ_QCD_bare" =
      some (510998.95 / (1 / 137.035999084) * BSMVerification.C_gyro / 1000000) :=
  C4_amended_bare_scale_alpha_sources 1 demoCache 1836.15267343 rfl

/-- C8 counterexample: after running the QCD stage on a cache holding only
the upstream coupling, the cache has exactly four named entries
(`Λ_QCD_1GeV`, `Λ_QCD_bare`, `C_gyro`, `𝒢`), so there cannot exist seven
distinct named entries for the five gyroscopic sub-terms plus the two
scales: the sub-terms are local variables and are never cached. -/
theorem C8_counterexample_subterms_not_cached :
    ¬ ∃ ks : List String, ks.Nodup ∧ ks.length = 7 ∧
      ∀ k ∈ ks, (cacheGet (BSMVerification.verify_qcd_scale 1 gOnlyCache) k).isSome := by
  have hkeys : cacheKeys (BSMVerification.verify_qcd_scale 1 gOnlyCache) =
      ["Λ_QCD_1GeV", "Λ_QCD_bare", "C_gyro", "𝒢"] := rfl
  rintro ⟨ks, hnd, hlen, hall⟩
  have hsub : ∀ k ∈ ks, k ∈ (["Λ_QCD_1GeV", "Λ_QCD_bare", "C_gyro", "𝒢"] : List String) := by
    intro k hk
    have := (cacheGet_isSome_iff_mem _ k).mp (hall k hk)
    rwa [hkeys] at this
  have h1 : ks.toFinset.card = 7 := by
    rw [List.toFinset_card_of_nodup hnd, hlen]
  have h2 : ks.toFinset ⊆
      (["Λ_QCD_1GeV", "Λ_QCD_bare", "C_gyro", "𝒢"] : List String).toFinset := by
    intro x hx
    rw [List.mem_toFinset] at hx ⊢
    exact hsub x hx
  have h3 := Finset.card_le_card h2
  have h4 : (["Λ_QCD_1GeV", "Λ_QCD_bare", "C_gyro", "𝒢"] : List String).toFinset.card ≤ 4 :=
    le_trans (List.toFinset_card_le _) (by norm_num)
  rw [h1] at h3
  omega

/-- C8 (amended): the QCD stage of either implementation adds exactly three
named entries to the cache — `C_gyro`, `Λ_QCD_bare` and `Λ_QCD_1GeV` — on
top of whatever was present; the five gyroscopic sub-terms are combined
into `C_gyro` and are not individually retrievable. -/
theorem C8_amended_qcd_cache_keys :
    ∀ (Troot : ℝ) (c : Cache),
      ((cacheGet c "𝒢").isSome →
        cacheKeys (BSMVerification.verify_qcd_scale Troot c) =
          "Λ_QCD_1GeV" :: "Λ_QCD_bare" :: "C_gyro" :: cacheKeys c) ∧
      ((cacheGet c "α_inv_pred").isSome →
        cacheKeys (BSMCalculator.compute_qcd_scale Troot c) =
          "C_gyro" :: "Λ_QCD_1GeV" :: "Λ_QCD_bare" :: cacheKeys c) := by
  intro Troot c
  constructor
  · intro h
    simp only [BSMVerification.verify_qcd_scale]
    rw [if_pos h]
    rfl
  · intro h
    simp only [BSMCalculator.compute_qcd_scale]
    rw [if_pos h]
    rfl

/-- C8 witness: the amended key accounting at concrete caches. -/
theorem C8_amended_witness :
    cacheKeys (BSMVerification.verify_qcd_scale 1 gOnlyCache) =
      "Λ_QCD_1GeV" :: "Λ_QCD_bare" :: "C_gyro" :: cacheKeys gOnlyCache ∧
    cacheKeys (BSMCalculator.compute_qcd_scale 1 demoCache) =
      "C_gyro" :: "Λ_QCD_1GeV" :: "Λ_QCD_bare" :: cacheKeys demoCache :=
  ⟨(C8_amended_qcd_cache_keys 1 gOnlyCache).1 rfl,
   (C8_amended_qcd_cache_keys 1 demoCache).2 rfl⟩

/-- C10: on a fresh pipeline the gravitational stage's substrate mass scale
is independent of the solver's root: since the geometric-coupling stage
writes `𝒢 = 1/(e·π·√2·T_eq)`, the product `𝒢·T_eq` is `1/(e·π·√2)`, so in
exact arithmetic the cached `M_s = (ħ/c)·(π/√2)·(1/(𝒢·T_eq))` equals
`e·π²·ħ/c` for every (nonzero) root value. -/
theorem C10_substrate_mass_scale_invariant :
    ∀ Troot : ℝ, Troot ≠ 0 →
      cacheGet (BSMVerification.verify_gravitational_constant Troot
          (BSMVerification.verify_geometric_coupling Troot ([] : Cache))) "M_s" =
        some (Real.exp 1 * Real.pi ^ 2 *
          (BSMVerification.hbar / BSMVerification.c_light)) := by
  intro Troot hT
  have hstage : cacheGet (BSMVerification.verify_gravitational_constant Troot
      (BSMVerification.verify_geometric_coupling Troot ([] : Cache))) "M_s" =
      some ((BSMVerification.hbar / BSMVerification.c_light) *
        (Real.pi / Real.sqrt 2) * (1 / (gval Troot * Troot))) := rfl
  rw [hstage]
  congr 1
  have he := Real.exp_ne_zero 1
  have hπ := Real.pi_ne_zero
  have hs2 : Real.sqrt 2 ≠ 0 := ne_of_gt (Real.sqrt_pos.mpr (by norm_num))
  have h2 : Real.sqrt 2 * Real.sqrt 2 = 2 := Real.mul_self_sqrt (by norm_num)
  unfold gval BSMVerification.hbar BSMVerification.c_light
  rw [div_mul_eq_mul_div, div_mul_eq_mul_div]
  field_simp
  ring_nf

/-- C10 witness: the invariant applied at the concrete root value `1`. -/
theorem C10_witness :
    cacheGet (BSMVerification.verify_gravitational_constant 1
        (BSMVerification.verify_geometric_coupling 1 ([] : Cache))) "M_s" =
      some (Real.exp 1 * Real.pi ^ 2 *
        (BSMVerification.hbar / BSMVerification.c_light)) :=
  C10_substrate_mass_scale_invariant 1 (by norm_num)

theorem conforms_nil (V : String → Option ℝ) : Conforms V ([] : Cache) :=
  fun _ _ h => Option.noConfusion h

theorem presTV_nil : PresTV ([] : Cache) := by
  intro h
  exact absurd h (by decide)

theorem set3_ok {V : String → Option ℝ} {c : Cache} {k1 k2 k3 : String} {v1 v2 v3 : ℝ}
    (h : Conforms V c) (h1 : V k1 = some v1) (h2 : V k2 = some v2) (h3 : V k3 = some v3) :
    Conforms V (cacheSet (cacheSet (cacheSet c k1 v1) k2 v2) k3 v3) ∧
    ExtendsC c (cacheSet (cacheSet (cacheSet c k1 v1) k2 v2) k3 v3) := by
  have c1 := conforms_set h h1
  have c2 := conforms_set c1 h2
  exact ⟨conforms_set c2 h3,
    extends_trans (extends_set h h1)
      (extends_trans (extends_set c1 h2) (extends_set c2 h3))⟩

theorem set4_ok {V : String → Option ℝ} {c : Cache} {k1 k2 k3 k4 : String}
    {v1 v2 v3 v4 : ℝ} (h : Conforms V c) (h1 : V k1 = some v1) (h2 : V k2 = some v2)
    (h3 : V k3 = some v3) (h4 : V k4 = some v4) :
    Conforms V (cacheSet (cacheSet (cacheSet (cacheSet c k1 v1) k2 v2) k3 v3) k4 v4) ∧
    ExtendsC c (cacheSet (cacheSet (cacheSet (cacheSet c k1 v1) k2 v2) k3 v3) k4 v4) := by
  have c1 := conforms_set h h1
  obtain ⟨cc, ee⟩ := set3_ok c1 h2 h3 h4
  exact ⟨cc, extends_trans (extends_set h h1) ee⟩

theorem set5_ok {V : String → Option ℝ} {c : Cache} {k1 k2 k3 k4 k5 : String}
    {v1 v2 v3 v4 v5 : ℝ} (h : Conforms V c) (h1 : V k1 = some v1) (h2 : V k2 = some v2)
    (h3 : V k3 = some v3) (h4 : V k4 = some v4) (h5 : V k5 = some v5) :
    Conforms V (cacheSet (cacheSet (cacheSet (cacheSet (cacheSet c k1 v1) k2 v2) k3 v3)
      k4 v4) k5 v5) ∧
    ExtendsC c (cacheSet (cacheSet (cacheSet (cacheSet (cacheSet c k1 v1) k2 v2) k3 v3)
      k4 v4) k5 v5) := by
  have c1 := conforms_set h h1
  obtain ⟨cc, ee⟩ := set4_ok c1 h2 h3 h4 h5
  exact ⟨cc, extends_trans (extends_set h h1) ee⟩

theorem teV_ok (Troot : ℝ) (c : Cache) (h : Conforms (BSMVerification.V Troot) c) :
    Conforms (BSMVerification.V Troot)
      (BSMVerification.verify_transcendental_equation Troot c) ∧
    PresTV (BSMVerification.verify_transcendental_equation Troot c) ∧
    ExtendsC c (BSMVerification.verify_transcendental_equation Troot c) := by
  simp only [BSMVerification.verify_transcendental_equation]
  obtain ⟨cc, ee⟩ := set3_ok h (rfl : BSMVerification.V Troot "epsilon_BSM" = some epsilon_BSM)
    (rfl : BSMVerification.V Troot "T_eq" = some Troot)
    (rfl : BSMVerification.V Troot "log_term" = some log_term)
  refine ⟨cc, ?_, ee⟩
  intro _
  rw [cacheGet_set_ne _ _ _ _ (by decide), cacheGet_set_self]
  rfl

theorem ensureTV_ok (Troot : ℝ) (c : Cache) (h : Conforms (BSMVerification.V Troot) c)
    (hp : PresTV c) :
    Conforms (BSMVerification.V Troot) (if (cacheGet c "T_eq").isSome then c
      else BSMVerification.verify_transcendental_equation Troot c) ∧
    PresTV (if (cacheGet c "T_eq").isSome then c
      else BSMVerification.verify_transcendental_equation Troot c) ∧
    ExtendsC c (if (cacheGet c "T_eq").isSome then c
      else BSMVerification.verify_transcendental_equation Troot c) ∧
    cacheGet (if (cacheGet c "T_eq").isSome then c
      else BSMVerification.verify_transcendental_equation Troot c) "T_eq" = some Troot := by
  by_cases hT : (cacheGet c "T_eq").isSome
  · rw [if_pos hT]
    exact ⟨h, hp, fun _ _ hh => hh, get_eq_of_conforms h hT rfl⟩
  · rw [if_neg hT]
    obtain ⟨h1, h2, h3⟩ := teV_ok Troot c h
    refine ⟨h1, h2, h3, ?_⟩
    simp only [BSMVerification.verify_transcendental_equation]
    rw [cacheGet_set_ne _ _ _ _ (by decide), cacheGet_set_self]

theorem gcV_ok (Troot : ℝ) (c : Cache) (h : Conforms (BSMVerification.V Troot) c)
    (hp : PresTV c) :
    Conforms (BSMVerification.V Troot) (BSMVerification.verify_geometric_coupling Troot c) ∧
    PresTV (BSMVerification.verify_geometric_coupling Troot c) ∧
    ExtendsC c (BSMVerification.verify_geometric_coupling Troot c) := by
  obtain ⟨h1, _h2, h3, hT⟩ := ensureTV_ok Troot c h hp
  have hval : ((cacheGet (if (cacheGet c "T_eq").isSome then c
      else BSMVerification.verify_transcendental_equation Troot c) "T_eq").getD 0) =
      Troot := by rw [hT]; rfl
  have hv1 : BSMVerification.V Troot "𝒢" = some (1 / (Real.exp 1 * Real.pi * Real.sqrt 2 *
      ((cacheGet (if (cacheGet c "T_eq").isSome then c
        else BSMVerification.verify_transcendental_equation Troot c) "T_eq").getD 0))) := by
    rw [hval]; rfl
  have hv3 : BSMVerification.V Troot "𝒢_error" =
      some |1 / (Real.exp 1 * Real.pi * Real.sqrt 2 *
        ((cacheGet (if (cacheGet c "T_eq").isSome then c
          else BSMVerification.verify_transcendental_equation Troot c) "T_eq").getD 0)) -
        0.074660340411| := by
    rw [hval]; rfl
  simp only [BSMVerification.verify_geometric_coupling]
  obtain ⟨cc, ee⟩ := set3_ok h1 hv1
    (rfl : BSMVerification.V Troot "𝒢_target" = some 0.074660340411) hv3
  refine ⟨cc, ?_, extends_trans h3 ee⟩
  intro _
  rw [cacheGet_set_ne _ _ _ _ (by decide), cacheGet_set_ne _ _ _ _ (by decide),
    cacheGet_set_ne _ _ _ _ (by decide), hT]
  rfl

theorem gcV_present_G (Troot : ℝ) (c : Cache) :
    (cacheGet (BSMVerification.verify_geometric_coupling Troot c) "𝒢").isSome := by
  rw [gcV_writes_G]
  rfl

theorem ensureGV_ok (Troot : ℝ) (c : Cache) (h : Conforms (BSMVerification.V Troot) c)
    (hp : PresTV c) :
    Conforms (BSMVerification.V Troot) (if (cacheGet c "𝒢").isSome then c
      else BSMVerification.verify_geometric_coupling Troot c) ∧
    PresTV (if (cacheGet c "𝒢").isSome then c
      else BSMVerification.verify_geometric_coupling Troot c) ∧
    ExtendsC c (if (cacheGet c "𝒢").isSome then c
      else BSMVerification.verify_geometric_coupling Troot c) ∧
    cacheGet (if (cacheGet c "𝒢").isSome then c
      else BSMVerification.verify_geometric_coupling Troot c) "𝒢" = some (gval Troot) ∧
    cacheGet (if (cacheGet c "𝒢").isSome then c
      else BSMVerification.verify_geometric_coupling Troot c) "T_eq" = some Troot := by
  by_cases hG : (cacheGet c "𝒢").isSome
  · rw [if_pos hG]
    exact ⟨h, hp, fun _ _ hh => hh, get_eq_of_conforms h hG rfl,
      get_eq_of_conforms h (hp hG) rfl⟩
  · rw [if_neg hG]
    obtain ⟨h1, h2, h3⟩ := gcV_ok Troot c h hp
    have hGp := gcV_present_G Troot c
    exact ⟨h1, h2, h3, get_eq_of_conforms h1 hGp rfl,
      get_eq_of_conforms h1 (h2 hGp) rfl⟩

theorem zdcV_ok (Troot : ℝ) (c : Cache) (h : Conforms (BSMVerification.V Troot) c)
    (hp : PresTV c) :
    Conforms (BSMVerification.V Troot) (BSMVerification.verify_zdc Troot c) ∧
    PresTV (BSMVerification.verify_zdc Troot c) ∧
    ExtendsC c (BSMVerification.verify_zdc Troot c) := by
  obtain ⟨h1, _h2, h3, hG, hT⟩ := ensureGV_ok Troot c h hp
  have hval : ((cacheGet (if (cacheGet c "𝒢").isSome then c
      else BSMVerification.verify_geometric_coupling Troot c) "𝒢").getD 0) =
      gval Troot := by rw [hG]; rfl
  have hv1 : BSMVerification.V Troot "α_inv_pred" =
      some (1836.15267343 * ((cacheGet (if (cacheGet c "𝒢").isSome then c
        else BSMVerification.verify_geometric_coupling Troot c) "𝒢").getD 0)) := by
    rw [hval]; rfl
  have hv3 : BSMVerification.V Troot "zdc_error" =
      some |1836.15267343 * ((cacheGet (if (cacheGet c "𝒢").isSome then c
        else BSMVerification.verify_geometric_coupling Troot c) "𝒢").getD 0) -
        137.035999084| := by
    rw [hval]; rfl
  have hv4 : BSMVerification.V Troot "zdc_rel_error" =
      some (|1836.15267343 * ((cacheGet (if (cacheGet c "𝒢").isSome then c
        else BSMVerification.verify_geometric_coupling Troot c) "𝒢").getD 0) -
        137.035999084| / 137.035999084) := by
    rw [hval]; rfl
  simp only [BSMVerification.verify_zdc]
  obtain ⟨cc, ee⟩ := set4_ok h1 hv1
    (rfl : BSMVerification.V Troot "α_inv_CODATA" = some 137.035999084) hv3 hv4
  refine ⟨cc, ?_, extends_trans h3 ee⟩
  intro _
  rw [cacheGet_set_ne _ _ _ _ (by decide), cacheGet_set_ne _ _ _ _ (by decide),
    cacheGet_set_ne _ _ _ _ (by decide), cacheGet_set_ne _ _ _ _ (by decide), hT]
  rfl

theorem qcdV_ok (Troot : ℝ) (c : Cache) (h : Conforms (BSMVerification.V Troot) c)
    (hp : PresTV c) :
    Conforms (BSMVerification.V Troot) (BSMVerification.verify_qcd_scale Troot c) ∧
    PresTV (BSMVerification.verify_qcd_scale Troot c) ∧
    ExtendsC c (BSMVerification.verify_qcd_scale Troot c) := by
  obtain ⟨h1, _h2, h3, _hG, hT⟩ := ensureGV_ok Troot c h hp
  simp only [BSMVerification.verify_qcd_scale]
  obtain ⟨cc, ee⟩ := set3_ok h1
    (rfl : BSMVerification.V Troot "C_gyro" = some BSMVerification.C_gyro)
    (rfl : BSMVerification.V Troot "Λ_QCD_bare" = some BSMVerification.Λ_QCD_bare)
    (rfl : BSMVerification.V Troot "Λ_QCD_1GeV" = some BSMVerification.Λ_QCD_1GeV)
  refine ⟨cc, ?_, extends_trans h3 ee⟩
  intro _
  rw [cacheGet_set_ne _ _ _ _ (by decide), cacheGet_set_ne _ _ _ _ (by decide),
    cacheGet_set_ne _ _ _ _ (by decide), hT]
  rfl

theorem gravV_ok (Troot : ℝ) (c : Cache) (h : Conforms (BSMVerification.V Troot) c)
    (hp : PresTV c) :
    Conforms (BSMVerification.V Troot)
      (BSMVerification.verify_gravitational_constant Troot c) ∧
    PresTV (BSMVerification.verify_gravitational_constant Troot c) ∧
    ExtendsC c (BSMVerification.verify_gravitational_constant Troot c) := by
  obtain ⟨h1, _h2, h3, hG, hT⟩ := ensureGV_ok Troot c h hp
  have hvalG : ((cacheGet (if (cacheGet c "𝒢").isSome then c
      else BSMVerification.verify_geometric_coupling Troot c) "𝒢").getD 0) =
      gval Troot := by rw [hG]; rfl
  have hvalT : ((cacheGet (if (cacheGet c "𝒢").isSome then c
      else BSMVerification.verify_geometric_coupling Troot c) "T_eq").getD 0) =
      Troot := by rw [hT]; rfl
  have hv1 : BSMVerification.V Troot "M_s" =
      some ((BSMVerification.hbar / BSMVerification.c_light) *
        (Real.pi / Real.sqrt 2) *
        (1 / ((cacheGet (if (cacheGet c "𝒢").isSome then c
          else BSMVerification.verify_geometric_coupling Troot c) "𝒢").getD 0 *
          (cacheGet (if (cacheGet c "𝒢").isSome then c
            else BSMVerification.verify_geometric_coupling Troot c) "T_eq").getD 0))) := by
    rw [hvalG, hvalT]; rfl
  have hv2 : BSMVerification.V Troot "G_pred" =
      some ((BSMVerification.c_light ^ 3 / BSMVerification.hbar) *
        (((cacheGet (if (cacheGet c "𝒢").isSome then c
          else BSMVerification.verify_geometric_coupling Troot c) "𝒢").getD 0) ^ 2 /
        ((BSMVerification.hbar / BSMVerification.c_light) * (Real.pi / Real.sqrt 2) *
          (1 / ((cacheGet (if (cacheGet c "𝒢").isSome then c
            else BSMVerification.verify_geometric_coupling Troot c) "𝒢").getD 0 *
            (cacheGet (if (cacheGet c "𝒢").isSome then c
              else BSMVerification.verify_geometric_coupling Troot c) "T_eq").getD 0))) ^ 2)) := by
    rw [hvalG, hvalT]; rfl
  simp only [BSMVerification.verify_gravitational_constant]
  obtain ⟨cc, ee⟩ := set4_ok h1 hv1 hv2
    (rfl : BSMVerification.V Troot "G_CODATA" = some 6.67430e-11)
    (rfl : BSMVerification.V Troot "Ḡ_over_G" = some (-0.8e-12))
  refine ⟨cc, ?_, extends_trans h3 ee⟩
  intro _
  rw [cacheGet_set_ne _ _ _ _ (by decide), cacheGet_set_ne _ _ _ _ (by decide),
    cacheGet_set_ne _ _ _ _ (by decide), cacheGet_set_ne _ _ _ _ (by decide), hT]
  rfl

theorem applyStageV_ok (Troot : ℝ) (s : BSMVerification.StageV) (c : Cache)
    (h : Conforms (BSMVerification.V Troot) c) (hp : PresTV c) :
    Conforms (BSMVerification.V Troot) (BSMVerification.applyStageV Troot s c) ∧
    PresTV (BSMVerification.applyStageV Troot s c) ∧
    ExtendsC c (BSMVerification.applyStageV Troot s c) := by
  cases s
  · exact teV_ok Troot c h
  · exact gcV_ok Troot c h hp
  · exact zdcV_ok Troot c h hp
  · exact qcdV_ok Troot c h hp
  · exact gravV_ok Troot c h hp

theorem runFoldV_ok (Troot : ℝ) :
    ∀ (l : List BSMVerification.StageV) (c : Cache),
      Conforms (BSMVerification.V Troot) c → PresTV c →
      Conforms (BSMVerification.V Troot)
        (l.foldl (fun c s => BSMVerification.applyStageV Troot s c) c) ∧
      PresTV (l.foldl (fun c s => BSMVerification.applyStageV Troot s c) c) ∧
      ExtendsC c (l.foldl (fun c s => BSMVerification.applyStageV Troot s c) c) := by
  intro l
  induction l with
  | nil => exact fun c h hp => ⟨h, hp, fun _ _ hh => hh⟩
  | cons s t ih =>
    intro c h hp
    obtain ⟨h1, h2, h3⟩ := applyStageV_ok Troot s c h hp
    obtain ⟨h4, h5, h6⟩ := ih _ h1 h2
    exact ⟨h4, h5, extends_trans h3 h6⟩

theorem gfC_ok (Troot : ℝ) (c : Cache) (h : Conforms (BSMCalculator.V Troot) c) :
    Conforms (BSMCalculator.V Troot) (BSMCalculator.compute_geometric_factors Troot c) ∧
    PresTV (BSMCalculator.compute_geometric_factors Troot c) ∧
    ExtendsC c (BSMCalculator.compute_geometric_factors Troot c) := by
  simp only [BSMCalculator.compute_geometric_factors]
  obtain ⟨cc, ee⟩ := set3_ok h (rfl : BSMCalculator.V Troot "T_eq" = some Troot)
    (rfl : BSMCalculator.V Troot "𝒢" =
      some (1 / (Real.exp 1 * Real.pi * Real.sqrt 2 * Troot)))
    (rfl : BSMCalculator.V Troot "epsilon_BSM" = some epsilon_BSM)
  refine ⟨cc, ?_, ee⟩
  intro _
  rw [cacheGet_set_ne _ _ _ _ (by decide), cacheGet_set_ne _ _ _ _ (by decide),
    cacheGet_set_self]
  rfl

theorem gfC_present_G (Troot : ℝ) (c : Cache) :
    (cacheGet (BSMCalculator.compute_geometric_factors Troot c) "𝒢").isSome := by
  rw [gfC_writes_G]
  rfl

theorem ensureGC_ok (Troot : ℝ) (c : Cache) (h : Conforms (BSMCalculator.V Troot) c)
    (hp : PresTV c) :
    Conforms (BSMCalculator.V Troot) (if (cacheGet c "𝒢").isSome then c
      else BSMCalculator.compute_geometric_factors Troot c) ∧
    PresTV (if (cacheGet c "𝒢").isSome then c
      else BSMCalculator.compute_geometric_factors Troot c) ∧
    ExtendsC c (if (cacheGet c "𝒢").isSome then c
      else BSMCalculator.compute_geometric_factors Troot c) ∧
    cacheGet (if (cacheGet c "𝒢").isSome then c
      else BSMCalculator.compute_geometric_factors Troot c) "𝒢" = some (gval Troot) ∧
    cacheGet (if (cacheGet c "𝒢").isSome then c
      else BSMCalculator.compute_geometric_factors Troot c) "T_eq" = some Troot := by
  by_cases hG : (cacheGet c "𝒢").isSome
  · rw [if_pos hG]
    exact ⟨h, hp, fun _ _ hh => hh, get_eq_of_conforms h hG rfl,
      get_eq_of_conforms h (hp hG) rfl⟩
  · rw [if_neg hG]
    obtain ⟨h1, h2, h3⟩ := gfC_ok Troot c h
    have hGp := gfC_present_G Troot c
    exact ⟨h1, h2, h3, get_eq_of_conforms h1 hGp rfl,
      get_eq_of_conforms h1 (h2 hGp) rfl⟩

theorem zdcC_ok (Troot : ℝ) (c : Cache) (h : Conforms (BSMCalculator.V Troot) c)
    (hp : PresTV c) :
    Conforms (BSMCalculator.V Troot) (BSMCalculator.verify_zdc Troot c) ∧
    PresTV (BSMCalculator.verify_zdc Troot c) ∧
    ExtendsC c (BSMCalculator.verify_zdc Troot c) := by
  obtain ⟨h1, _h2, h3, hG, hT⟩ := ensureGC_ok Troot c h hp
  have hval : ((cacheGet (if (cacheGet c "𝒢").isSome then c
      else BSMCalculator.compute_geometric_factors Troot c) "𝒢").getD 0) =
      gval Troot := by rw [hG]; rfl
  have hv2 : BSMCalculator.V Troot "α_inv_pred" =
      some (1836.15267343 * ((cacheGet (if (cacheGet c "𝒢").isSome then c
        else BSMCalculator.compute_geometric_factors Troot c) "𝒢").getD 0)) := by
    rw [hval]; rfl
  have hv4 : BSMCalculator.V Troot "zdc_error" =
      some |1836.15267343 * ((cacheGet (if (cacheGet c "𝒢").isSome then c
        else BSMCalculator.compute_geometric_factors Troot c) "𝒢").getD 0) -
        137.035999084| := by
    rw [hval]; rfl
  have hv5 : BSMCalculator.V Troot "zdc_rel_error" =
      some (|1836.15267343 * ((cacheGet (if (cacheGet c "𝒢").isSome then c
        else BSMCalculator.compute_geometric_factors Troot c) "𝒢").getD 0) -
        137.035999084| / 137.035999084) := by
    rw [hval]; rfl
  simp only [BSMCalculator.verify_zdc]
  obtain ⟨cc, ee⟩ := set5_ok h1
    (rfl : BSMCalculator.V Troot "μ" = some 1836.15267343) hv2
    (rfl : BSMCalculator.V Troot "α_inv_CODATA" = some 137.035999084) hv4 hv5
  refine ⟨cc, ?_, extends_trans h3 ee⟩
  intro _
  rw [cacheGet_set_ne _ _ _ _ (by decide), cacheGet_set_ne _ _ _ _ (by decide),
    cacheGet_set_ne _ _ _ _ (by decide), cacheGet_set_ne _ _ _ _ (by decide),
    cacheGet_set_ne _ _ _ _ (by decide), hT]
  rfl

theorem zdcC_present_pred (Troot : ℝ) (c : Cache) :
    (cacheGet (BSMCalculator.verify_zdc Troot c) "α_inv_pred").isSome := by
  obtain ⟨g, _, hpred, _, _⟩ := zdcC_spec Troot c
  rw [hpred]
  rfl

theorem ensureAC_ok (Troot : ℝ) (c : Cache) (h : Conforms (BSMCalculator.V Troot) c)
    (hp : PresTV c) :
    Conforms (BSMCalculator.V Troot) (if (cacheGet c "α_inv_pred").isSome then c
      else BSMCalculator.verify_zdc Troot c) ∧
    PresTV (if (cacheGet c "α_inv_pred").isSome then c
      else BSMCalculator.verify_zdc Troot c) ∧
    ExtendsC c (if (cacheGet c "α_inv_pred").isSome then c
      else BSMCalculator.verify_zdc Troot c) ∧
    cacheGet (if (cacheGet c "α_inv_pred").isSome then c
      else BSMCalculator.verify_zdc Troot c) "α_inv_pred" =
      some (1836.15267343 * gval Troot) := by
  by_cases hA : (cacheGet c "α_inv_pred").isSome
  · rw [if_pos hA]
    exact ⟨h, hp, fun _ _ hh => hh, get_eq_of_conforms h hA rfl⟩
  · rw [if_neg hA]
    obtain ⟨h1, h2, h3⟩ := zdcC_ok Troot c h hp
    exact ⟨h1, h2, h3, get_eq_of_conforms h1 (zdcC_present_pred Troot c) rfl⟩

theorem qcdC_ok (Troot : ℝ) (c : Cache) (h : Conforms (BSMCalculator.V Troot) c)
    (hp : PresTV c) :
    Conforms (BSMCalculator.V Troot) (BSMCalculator.compute_qcd_scale Troot c) ∧
    PresTV (BSMCalculator.compute_qcd_scale Troot c) ∧
    ExtendsC c (BSMCalculator.compute_qcd_scale Troot c) := by
  obtain ⟨h1, h2, h3, hA⟩ := ensureAC_ok Troot c h hp
  have hval : ((cacheGet (if (cacheGet c "α_inv_pred").isSome then c
      else BSMCalculator.verify_zdc Troot c) "α_inv_pred").getD 0) =
      1836.15267343 * gval Troot := by rw [hA]; rfl
  have hv1 : BSMCalculator.V Troot "Λ_QCD_bare" =
      some (510998.95 / (1 / ((cacheGet (if (cacheGet c "α_inv_pred").isSome then c
        else BSMCalculator.verify_zdc Troot c) "α_inv_pred").getD 0)) *
        BSMCalculator.C_gyro / 1000000) := by
    rw [hval]; rfl
  have hv2 : BSMCalculator.V Troot "Λ_QCD_1GeV" =
      some (510998.95 / (1 / ((cacheGet (if (cacheGet c "α_inv_pred").isSome then c
        else BSMCalculator.verify_zdc Troot c) "α_inv_pred").getD 0)) *
        BSMCalculator.C_gyro / 1000000 *
        Real.exp (2 * Real.pi / ((11 * 3 - 2 * 3) / 3 * 2))) := by
    rw [hval]; rfl
  simp only [BSMCalculator.compute_qcd_scale]
  obtain ⟨cc, ee⟩ := set3_ok h1 hv1 hv2
    (rfl : BSMCalculator.V Troot "C_gyro" = some BSMCalculator.C_gyro)
  refine ⟨cc, ?_, extends_trans h3 ee⟩
  intro hGp
  rw [cacheGet_set_ne _ _ _ _ (by decide), cacheGet_set_ne _ _ _ _ (by decide),
    cacheGet_set_ne _ _ _ _ (by decide)]
  rw [cacheGet_set_ne _ _ _ _ (by decide), cacheGet_set_ne _ _ _ _ (by decide),
    cacheGet_set_ne _ _ _ _ (by decide)] at hGp
  exact h2 hGp

theorem gravC_ok (Troot : ℝ) (c : Cache) (h : Conforms (BSMCalculator.V Troot) c)
    (hp : PresTV c) :
    Conforms (BSMCalculator.V Troot)
      (BSMCalculator.compute_gravitational_constant Troot c) ∧
    PresTV (BSMCalculator.compute_gravitational_constant Troot c) ∧
    ExtendsC c (BSMCalculator.compute_gravitational_constant Troot c) := by
  obtain ⟨h1, _h2, h3, hG, hT⟩ := ensureGC_ok Troot c h hp
  have hvalG : ((cacheGet (if (cacheGet c "𝒢").isSome then c
      else BSMCalculator.compute_geometric_factors Troot c) "𝒢").getD 0) =
      gval Troot := by rw [hG]; rfl
  have hvalT : ((cacheGet (if (cacheGet c "𝒢").isSome then c
      else BSMCalculator.compute_geometric_factors Troot c) "T_eq").getD 0) =
      Troot := by rw [hT]; rfl
  have hv1 : BSMCalculator.V Troot "G_pred" =
      some ((BSMCalculator.scipy_c ^ 3 / BSMCalculator.scipy_hbar) *
        (((cacheGet (if (cacheGet c "𝒢").isSome then c
          else BSMCalculator.compute_geometric_factors Troot c) "𝒢").getD 0) ^ 2 /
        ((BSMCalculator.scipy_hbar / BSMCalculator.scipy_c) * (Real.pi / Real.sqrt 2) *
          (1 / ((cacheGet (if (cacheGet c "𝒢").isSome then c
            else BSMCalculator.compute_geometric_factors Troot c) "𝒢").getD 0 *
            (cacheGet (if (cacheGet c "𝒢").isSome then c
              else BSMCalculator.compute_geometric_factors Troot c) "T_eq").getD 0))) ^ 2)) := by
    rw [hvalG, hvalT]; rfl
  have hv3 : BSMCalculator.V Troot "M_s" =
      some ((BSMCalculator.scipy_hbar / BSMCalculator.scipy_c) *
        (Real.pi / Real.sqrt 2) *
        (1 / ((cacheGet (if (cacheGet c "𝒢").isSome then c
          else BSMCalculator.compute_geometric_factors Troot c) "𝒢").getD 0 *
          (cacheGet (if (cacheGet c "𝒢").isSome then c
            else BSMCalculator.compute_geometric_factors Troot c) "T_eq").getD 0))) := by
    rw [hvalG, hvalT]; rfl
  simp only [BSMCalculator.compute_gravitational_constant]
  obtain ⟨cc, ee⟩ := set3_ok h1 hv1
    (rfl : BSMCalculator.V Troot "Ḡ_over_G" = some (-0.8e-12)) hv3
  refine ⟨cc, ?_, extends_trans h3 ee⟩
  intro _
  rw [cacheGet_set_ne _ _ _ _ (by decide), cacheGet_set_ne _ _ _ _ (by decide),
    cacheGet_set_ne _ _ _ _ (by decide), hT]
  rfl

theorem applyStageC_ok (Troot : ℝ) (s : BSMCalculator.StageC) (c : Cache)
    (h : Conforms (BSMCalculator.V Troot) c) (hp : PresTV c) :
    Conforms (BSMCalculator.V Troot) (BSMCalculator.applyStageC Troot s c) ∧
    PresTV (BSMCalculator.applyStageC Troot s c) ∧
    ExtendsC c (BSMCalculator.applyStageC Troot s c) := by
  cases s
  · exact gfC_ok Troot c h
  · exact zdcC_ok Troot c h hp
  · exact qcdC_ok Troot c h hp
  · exact gravC_ok Troot c h hp

theorem runFoldC_ok (Troot : ℝ) :
    ∀ (l : List BSMCalculator.StageC) (c : Cache),
      Conforms (BSMCalculator.V Troot) c → PresTV c →
      Conforms (BSMCalculator.V Troot)
        (l.foldl (fun c s => BSMCalculator.applyStageC Troot s c) c) ∧
      PresTV (l.foldl (fun c s => BSMCalculator.applyStageC Troot s c) c) ∧
      ExtendsC c (l.foldl (fun c s => BSMCalculator.applyStageC Troot s c) c) := by
  intro l
  induction l with
  | nil => exact fun c h hp => ⟨h, hp, fun _ _ hh => hh⟩
  | cons s t ih =>
    intro c h hp
    obtain ⟨h1, h2, h3⟩ := applyStageC_ok Troot s c h hp
    obtain ⟨h4, h5, h6⟩ := ih _ h1 h2
    exact ⟨h4, h5, extends_trans h3 h6⟩

/-- C9: on a single pipeline instance (of either class), once a quantity
name has been written to the result cache its value never changes: a
binding observed after any call sequence `ids` (from construction, i.e.
the empty cache) is still present with the identical value after any
further calls `more`, including re-runs of the stage that wrote it
(every write of a key deposits the same canonical value, a function of
the solver root alone). -/
theorem C9_cache_single_assignment :
    (∀ (Troot : ℝ) (ids more : List BSMVerification.StageV) (k : String) (v : ℝ),
      cacheGet (BSMVerification.runSeqV Troot ids) k = some v →
      cacheGet (BSMVerification.runSeqV Troot (ids ++ more)) k = some v) ∧
    (∀ (Troot : ℝ) (ids more : List BSMCalculator.StageC) (k : String) (v : ℝ),
      cacheGet (BSMCalculator.runSeqC Troot ids) k = some v →
      cacheGet (BSMCalculator.runSeqC Troot (ids ++ more)) k = some v) := by
  constructor
  · intro Troot ids more k v hv
    obtain ⟨hc, hpres, _⟩ :=
      runFoldV_ok Troot ids ([] : Cache) (conforms_nil _) presTV_nil
    have hsplit : BSMVerification.runSeqV Troot (ids ++ more) =
        more.foldl (fun c s => BSMVerification.applyStageV Troot s c)
          (BSMVerification.runSeqV Troot ids) := by
      unfold BSMVerification.runSeqV
      rw [List.foldl_append]
    obtain ⟨_, _, hext⟩ :=
      runFoldV_ok Troot more (BSMVerification.runSeqV Troot ids) hc hpres
    rw [hsplit]
    exact hext k v hv
  · intro Troot ids more k v hv
    obtain ⟨hc, hpres, _⟩ :=
      runFoldC_ok Troot ids ([] : Cache) (conforms_nil _) presTV_nil
    have hsplit : BSMCalculator.runSeqC Troot (ids ++ more) =
        more.foldl (fun c s => BSMCalculator.applyStageC Troot s c)
          (BSMCalculator.runSeqC Troot ids) := by
      unfold BSMCalculator.runSeqC
      rw [List.foldl_append]
    obtain ⟨_, _, hext⟩ :=
      runFoldC_ok Troot more (BSMCalculator.runSeqC Troot ids) hc hpres
    rw [hsplit]
    exact hext k v hv

/-- C9 witness: re-running the solver stage writes `T_eq` back with the
identical value. -/
theorem C9_witness :
    cacheGet (BSMVerification.runSeqV 1
      ([BSMVerification.StageV.te] ++ [BSMVerification.StageV.te])) "T_eq" = some 1 ∧
    cacheGet (BSMCalculator.runSeqC 1
      ([BSMCalculator.StageC.gf] ++ [BSMCalculator.StageC.gf])) "T_eq" = some 1 :=
  ⟨C9_cache_single_assignment.1 1 [BSMVerification.StageV.te]
      [BSMVerification.StageV.te] "T_eq" 1 rfl,
   C9_cache_single_assignment.2 1 [BSMCalculator.StageC.gf]
      [BSMCalculator.StageC.gf] "T_eq" 1 rfl⟩

end BSM
